import Mathlib

/-!
# Verification of the ruskel/ripdoc rendering core

A shallow embedding, in Lean 4, of the parts of the ruskel/ripdoc repository
that the specification claims talk about:

* the derive-annotation allow-list and impl-block suppression
  (`crates/libruskel/src/render/impls.rs`, `items.rs`);
* tuple-struct field rendering (`crates/libruskel/src/render/items.rs`);
* the per-item visibility gate (`crates/libruskel/src/render/items.rs`);
* the path-filter state machine and the filter-not-matched error
  (`crates/ripdoc-render/src/state.rs`);
* implementation-block rendering (`crates/libruskel/src/render/impls.rs`);
* `RenderSelection` (`crates/ripdoc-render/src/core.rs`);
* markdown/doc-comment conversion (`crates/ripdoc-render/src/core.rs`);
* generic-bound rendering (`crates/libruskel/src/crateutils/bounds.rs`);
* the empty-output fallback of `Ripdoc::render` (`crates/ripdoc-core/src/lib.rs`).

Rust machine integers do not occur in this fragment; all text manipulation is
modelled on Lean `String`/`List Char`.  The Rust standard string functions used
by the code (`trim`, `split`, `starts_with`, ...) are re-implemented below on
`List Char` so that every definition is executable and kernel-reducible; each
helper documents the `std` function it models.  Rust `char::is_whitespace` is
Unicode-aware while `Char.isWhitespace` covers the ASCII whitespace actually
occurring in rendered output; all inputs considered here are ASCII.
-/

namespace Ruskel

/-! ## String helpers (models of Rust `std::str` functions) -/

/-- Model of Rust `str::trim_start`. -/
def s_trim_left (s : String) : String :=
  String.mk (s.toList.dropWhile Char.isWhitespace)

/-- Model of Rust `str::trim_end`. -/
def s_trim_right (s : String) : String :=
  String.mk ((s.toList.reverse.dropWhile Char.isWhitespace).reverse)

/-- Model of Rust `str::trim`. -/
def s_trim (s : String) : String := s_trim_left (s_trim_right s)

/-- Model of Rust `str::is_empty`. -/
def s_is_empty (s : String) : Bool := s.toList.isEmpty

/-- Model of Rust `str::starts_with` (string pattern). -/
def s_starts_with (s pat : String) : Bool := pat.toList.isPrefixOf s.toList

/-- Model of Rust `str::ends_with` (string pattern). -/
def s_ends_with (s pat : String) : Bool := pat.toList.isSuffixOf s.toList

/-- Drop the first `n` characters (model of byte slicing `&s[n..]` on ASCII). -/
def s_drop (s : String) (n : Nat) : String := String.mk (s.toList.drop n)

/-- Fuel-indexed worker for `s_split_on`.  The fuel is at least the length of
the remaining character list, and at least one character is consumed per step,
so the fuel never runs out for the wrapper below (the separator is assumed
nonempty, as at every call site). -/
def split_on_aux (sep : List Char) : Nat → List Char → List Char → List (List Char)
  | 0, rest, acc => [acc.reverse ++ rest]
  | _ + 1, [], acc => [acc.reverse]
  | fuel + 1, c :: rest, acc =>
    if sep.isPrefixOf (c :: rest) then
      acc.reverse :: split_on_aux sep fuel ((c :: rest).drop sep.length) []
    else
      split_on_aux sep fuel rest (c :: acc)

/-- Model of Rust `str::split` collected into a `Vec` (leftmost,
non-overlapping occurrences of a nonempty separator). -/
def s_split_on (s sep : String) : List String :=
  (split_on_aux sep.toList (s.toList.length + 1) s.toList []).map String.mk

/-- Model of Rust `str::replace` for a nonempty pattern. -/
def s_replace (s pat repl : String) : String :=
  String.intercalate repl (s_split_on s pat)

/-- Model of Rust `str::lines` (split on `\n`, no entry for a trailing
newline; `\r` stripping is irrelevant for the rendered output modelled here). -/
def s_lines (s : String) : List String :=
  let parts := s_split_on s "\n"
  if parts.getLast? = some "" then parts.dropLast else parts

/-! ## Basic rustdoc data model

A faithful-but-restricted embedding of the `rustdoc_types` values the claims
exercise.  Restrictions (each noted where it matters): paths carry no generic
arguments (`Path.args = None`), generic parameters in binder position are
lifetime parameters, where-predicates are lifetime predicates, and the type
universe covers resolved paths, primitives, generic parameters and references.
These restrictions narrow the input universe; every rendering function is
translated clause-for-clause from the source on the constructors present. -/

/-- Item identifier (`rustdoc_types::Id`). -/
abbrev Id := Nat

/-- `rustdoc_types::Visibility`, collapsed to public vs other exactly as the
renderer consumes it (`matches!(item.visibility, Visibility::Public)`). -/
inductive Visibility where
  | public
  | other
deriving DecidableEq

/-- `rustdoc_types::Path` with `args = None`. -/
structure RPath where
  id : Id
  path : String
deriving DecidableEq

/-- `rustdoc_types::TraitBoundModifier`. -/
inductive TraitBoundModifier where
  | none
  | maybe
  | maybeConst
deriving DecidableEq

/-- A generic parameter definition in binder position
(`rustdoc_types::GenericParamDef`, restricted to the `Lifetime` kind: a name
plus outlived lifetimes). -/
structure GenericParamDef where
  name : String
  outlives : List String
deriving DecidableEq

/-- `rustdoc_types::GenericBound`.  `use` is the unstable precise-capturing
bound `use<..>`; its argument list is kept as raw strings. -/
inductive GenericBound where
  | use (args : List String)
  | traitBound (trait_ : RPath) (generic_params : List GenericParamDef)
      (modifier : TraitBoundModifier)
  | outlives (lifetime : String)
deriving DecidableEq

/-- `rustdoc_types::PolyTrait`. -/
structure PolyTrait where
  trait_ : RPath
  generic_params : List GenericParamDef
deriving DecidableEq

/-- A where-clause predicate (`rustdoc_types::WherePredicate`, restricted to
the `LifetimePredicate` kind). -/
structure WherePredicate where
  lifetime : String
  outlives : List String
deriving DecidableEq

/-- `rustdoc_types::Generics`. -/
structure Generics where
  params : List GenericParamDef
  where_predicates : List WherePredicate
deriving DecidableEq

/-- The empty generics value. -/
def Generics.empty : Generics := ⟨[], []⟩

/-- `rustdoc_types::Type`, restricted to the constructors exercised here. -/
inductive RType where
  | resolvedPath (id : Id) (path : String)
  | primitive (s : String)
  | generic (s : String)
  | borrowedRef (lifetime : Option String) (is_mutable : Bool) (type_ : RType)
deriving DecidableEq

/-! ## Syntax renderers (`crates/ripdoc-render/src/syntax`,
re-exported as `crates/libruskel/src/crateutils`) -/

/-- `render_path` (`syntax/path.rs`): the path with `$crate::` scrubbed; the
generic-argument suffix is empty because embedded paths carry no arguments. -/
def render_path (p : RPath) : String :=
  s_replace p.path "$crate::" ""

/-- `render_generic_param_def` (`syntax/generics.rs`), `Lifetime` arm: the
name plus any outlived lifetimes.  (The `Type` arm returns `None` for
synthetic parameters; synthetic parameters do not occur in binder position in
this embedding.) -/
def render_generic_param_def (param : GenericParamDef) : Option String :=
  some (param.name ++
    (if param.outlives.isEmpty then ""
     else ": " ++ String.intercalate " + " param.outlives))

/-- `render_path_as_poly_trait` (`crateutils/bounds.rs`). -/
def render_path_as_poly_trait (poly_trait : PolyTrait) : String :=
  let generic_params :=
    if poly_trait.generic_params.isEmpty then ""
    else
      let params := poly_trait.generic_params.filterMap render_generic_param_def
      if params.isEmpty then ""
      else "for<" ++ String.intercalate ", " params ++ "> "
  generic_params ++ render_path poly_trait.trait_

/-- `render_generic_bound` (`crateutils/bounds.rs`): precise-capturing
`use<..>` bounds render as the empty string; trait bounds render their
modifier and poly-trait; outlives bounds render the lifetime. -/
def render_generic_bound : GenericBound → String
  | GenericBound.use _ => ""
  | GenericBound.traitBound trait_ generic_params modifier =>
    let modifierStr := match modifier with
      | TraitBoundModifier.none => ""
      | TraitBoundModifier.maybe => "?"
      | TraitBoundModifier.maybeConst => "~const"
    let poly_trait : PolyTrait := ⟨trait_, generic_params⟩
    match modifierStr with
    | "" => render_path_as_poly_trait poly_trait
    | "~const" => modifierStr ++ " " ++ render_path_as_poly_trait poly_trait
    | _ => modifierStr ++ render_path_as_poly_trait poly_trait
  | GenericBound.outlives lifetime => lifetime

/-- `render_generic_bounds` (`crateutils/bounds.rs`): render each bound, drop
the ones whose rendering is whitespace-only, join with `+`. -/
def render_generic_bounds (bounds : List GenericBound) : String :=
  String.intercalate " + "
    ((bounds.map render_generic_bound).filter (fun s => !(s_is_empty (s_trim s))))

/-- `render_generics` (`syntax/generics.rs`). -/
def render_generics (generics : Generics) : String :=
  let params := generics.params.filterMap render_generic_param_def
  if params.isEmpty then ""
  else "<" ++ String.intercalate ", " params ++ ">"

/-- `render_where_predicate` (`syntax/generics.rs`), `LifetimePredicate` arm. -/
def render_where_predicate (pred : WherePredicate) : Option String :=
  if pred.outlives.isEmpty then some pred.lifetime
  else some (pred.lifetime ++ ": " ++ String.intercalate " + " pred.outlives)

/-- `render_where_clause` (`syntax/generics.rs`). -/
def render_where_clause (generics : Generics) : String :=
  let predicates := generics.where_predicates.filterMap render_where_predicate
  if predicates.isEmpty then ""
  else " where " ++ String.intercalate ", " predicates

/-- `render_type_inner` (`crateutils/types.rs`) on the embedded constructors:
resolved paths scrub `$crate::` (argument suffix empty), primitives and
generic parameters render their names, references render lifetime and
mutability before the pointee. -/
def render_type_inner : RType → Bool → String
  | RType.resolvedPath _ path, _ => s_replace path "$crate::" ""
  | RType.primitive s, _ => s
  | RType.generic s, _ => s
  | RType.borrowedRef lifetime is_mutable type_, _ =>
    "&" ++ ((lifetime.map (fun lt => lt ++ " ")).getD "") ++
      (if is_mutable then "mut " else "") ++ render_type_inner type_ true

/-- `render_type` (`crateutils/types.rs`). -/
def render_type (ty : RType) : String := render_type_inner ty false

/-! ## Items and the crate graph -/

/-- `rustdoc_types::Module` (the `is_crate`/`is_stripped` flags are unused by
the embedded renderers). -/
structure Module where
  items : List Id
deriving DecidableEq

/-- `rustdoc_types::StructKind`.  Tuple fields are `Option<Id>`: a missing id
marks a field stripped from the rustdoc output. -/
inductive StructKind where
  | unit
  | tuple (fields : List (Option Id))
  | plain (fields : List Id)
deriving DecidableEq

/-- `rustdoc_types::Struct`. -/
structure Struct where
  kind : StructKind
  generics : Generics
  impls : List Id
deriving DecidableEq

/-- `rustdoc_types::FunctionHeader` (the ABI field is unused). -/
structure FunctionHeader where
  is_const : Bool
  is_async : Bool
  is_unsafe : Bool
deriving DecidableEq

/-- `rustdoc_types::FunctionSignature`: named inputs and an optional output. -/
structure FunctionSignature where
  inputs : List (String × RType)
  output : Option RType
deriving DecidableEq

/-- `rustdoc_types::Function` (the body itself is never rendered; only
`has_body` is consulted). -/
structure Function where
  sig : FunctionSignature
  generics : Generics
  header : FunctionHeader
  has_body : Bool
deriving DecidableEq

/-- `rustdoc_types::Constant` (only the rendered expression is consumed). -/
structure Constant where
  expr : String
deriving DecidableEq

/-- `rustdoc_types::TypeAlias`. -/
structure TypeAlias where
  type_ : RType
  generics : Generics
deriving DecidableEq

/-- `rustdoc_types::Impl`.  `blanket_impl` is `Some` for blanket
implementations; `is_synthetic` marks compiler-generated (auto-trait)
implementations. -/
structure Impl where
  is_unsafe : Bool
  generics : Generics
  trait_ : Option RPath
  for_ : RType
  items : List Id
  is_synthetic : Bool
  blanket_impl : Option RType
deriving DecidableEq

/-- `rustdoc_types::ItemEnum`, restricted to the kinds the embedded renderers
dispatch on.  `traitDecl` stands for `ItemEnum::Trait`; its payload is not
carried because no claim depends on trait-declaration text (`render_trait` is
outside the embedded fragment). -/
inductive ItemEnum where
  | module (m : Module)
  | structItem (s : Struct)
  | structField (type_ : RType)
  | enumItem
  | traitDecl
  | function (f : Function)
  | constant (type_ : RType) (const_ : Constant)
  | typeAlias (t : TypeAlias)
  | assocType (bounds : List GenericBound) (type_ : Option RType)
  | implBlock (i : Impl)
deriving DecidableEq

/-- `rustdoc_types::Item`. -/
structure Item where
  id : Id
  name : Option String
  visibility : Visibility
  docs : Option String
  inner : ItemEnum
deriving DecidableEq

/-- `rustdoc_types::Crate`: the root module id plus the id-to-item index.  The
index is a function because the renderer only ever reads it
(`crate_data.index.get(id)`). -/
structure Crate where
  root : Id
  index : Id → Option Item

/-! ## `RenderSelection` (`crates/ripdoc-render/src/core.rs`) -/

/-- The three identifier sets driving a search-restricted render.  The Rust
`HashSet<Id>` fields are modelled as `Finset Id`; the fields are private in
the source and read through shared-reference accessors only. -/
structure RenderSelection where
  matches_ : Finset Id
  context : Finset Id
  expanded : Finset Id
deriving DecidableEq

/-- `RenderSelection::new`: every id of `matches` is inserted into the
caller-supplied `context` before the selection is built. -/
def RenderSelection.new (ms context expanded : Finset Id) : RenderSelection :=
  ⟨ms, context ∪ ms, expanded⟩

/-! ## Renderer configuration and render state
(`crates/ripdoc-render/src/core.rs`, `state.rs`; `crates/libruskel` declares
the same `render::core`/`render::state` modules) -/

/-- The immutable `Renderer` configuration (the `rust_format` formatter and
output-format switch are external to the core and omitted). -/
structure Renderer where
  render_auto_impls : Bool
  render_private_items : Bool
  filter : String
  selection : Option RenderSelection

/-- `RenderState` without its mutable `filter_matched` flag; the flag is
modelled explicitly where it matters (see `should_filter` and
`final_filter_matched` below), and the skip decision taken by the renderers
does not depend on it. -/
structure RenderState where
  config : Renderer
  crate_data : Crate

/-- `RenderState::selection`. -/
def RenderState.selection (s : RenderState) : Option RenderSelection :=
  s.config.selection

/-- `RenderState::selection_context_contains`. -/
def selection_context_contains (s : RenderState) (id : Id) : Bool :=
  match s.selection with
  | some sel => decide (id ∈ sel.context)
  | none => true

/-- `RenderState::selection_matches`. -/
def selection_matches (s : RenderState) (id : Id) : Bool :=
  match s.selection with
  | some sel => decide (id ∈ sel.matches_)
  | none => false

/-- `RenderState::selection_expands`. -/
def selection_expands (s : RenderState) (id : Id) : Bool :=
  match s.selection with
  | some sel => decide (id ∈ sel.expanded)
  | none => true

/-- `RenderState::selection_allows_child`. -/
def selection_allows_child (s : RenderState) (parent_id child_id : Id) : Bool :=
  if s.selection.isNone then true
  else selection_expands s parent_id || selection_context_contains s child_id

/-! ## Path filter (`crates/ripdoc-render/src/state.rs`, `utils.rs`) -/

/-- `FilterMatch` (`utils.rs`): how the configured filter relates to a path. -/
inductive FilterMatch where
  | Hit
  | Prefix
  | Suffix
  | Miss
deriving DecidableEq

/-- `ppush` (`utils.rs`): append a name to a `::`-separated path. -/
def ppush (path : String) (name : String) : String :=
  if s_is_empty path then name else path ++ "::" ++ name

/-- `RenderState::filter_match` (`state.rs`): compare the filter components
against the item path components with the leading crate segment skipped.
`a.starts_with(&b)` on component vectors is `b.isPrefixOf a`. -/
def filter_match (config : Renderer) (path : String) (item : Item) : FilterMatch :=
  match item.name with
  | Option.none => FilterMatch.Prefix
  | some name =>
    let item_path := ppush path name
    let filter_components := s_split_on config.filter "::"
    let item_components := (s_split_on item_path "::").drop 1
    if filter_components = item_components then FilterMatch.Hit
    else if item_components.isPrefixOf filter_components then FilterMatch.Prefix
    else if filter_components.isPrefixOf item_components then FilterMatch.Suffix
    else FilterMatch.Miss

/-- `RenderState::should_filter` (`state.rs`).  The Rust method mutates
`self.filter_matched`; here it returns `(skip, filter_matched')`: whether the
item is filtered out, and the updated flag. -/
def should_filter (config : Renderer) (root : Id) (filter_matched : Bool)
    (path : String) (item : Item) : Bool × Bool :=
  if item.id = root then (false, filter_matched)
  else if s_is_empty config.filter then (false, filter_matched)
  else
    match filter_match config path item with
    | FilterMatch.Hit => (false, true)
    | FilterMatch.Prefix => (false, filter_matched)
    | FilterMatch.Suffix => (false, filter_matched)
    | FilterMatch.Miss => (true, filter_matched)

/-- The skip decision of `should_filter`; it does not depend on the incoming
`filter_matched` flag, so the renderers below consult this projection. -/
def should_filter_skip (s : RenderState) (path : String) (item : Item) : Bool :=
  (should_filter s.config s.crate_data.root false path item).1

/-- `RenderState::should_module_doc` (`state.rs`). -/
def should_module_doc (s : RenderState) (path : String) (item : Item) : Bool :=
  if s_is_empty s.config.filter then true
  else
    match filter_match s.config path item with
    | FilterMatch.Hit => true
    | FilterMatch.Suffix => true
    | _ => false

/-- The `filter_matched` flag after a sequence of `should_filter` calls, one
per `(path_prefix, item)` pair visited by the depth-first walk.  This models
the single mutable flag of `RenderState` over a whole render call. -/
def final_filter_matched (config : Renderer) (root : Id)
    (visits : List (String × Item)) : Bool :=
  visits.foldl (fun matched v => (should_filter config root matched v.1 v.2).2) false

/-- `RipdocError` (`crates/ripdoc-render/src/error.rs`).  The
`FilterNotMatched` payload is the filter string named by the error message. -/
inductive RipdocError where
  | FilterNotMatched (filter : String)
  | Formatter
deriving DecidableEq

/-- The tail of `RenderState::render` (`state.rs`): after the walk, fail with
`FilterNotMatched` when a filter is configured but never matched, otherwise
return the output (formatting is external and modelled as the identity). -/
def render_filter_check (config : Renderer) (root : Id)
    (visits : List (String × Item)) (output : String) : Except RipdocError String :=
  if !(s_is_empty config.filter) && !(final_filter_matched config root visits) then
    Except.error (RipdocError.FilterNotMatched config.filter)
  else
    Except.ok output

/-! ## Item-level helpers (`syntax/item.rs`, `render/items.rs`) -/

/-- The 2015/2018 reserved words of `is_reserved_word`.  The keyword table
itself (`syntax/keywords.rs`) is not under `src/`; this list is the standard
Rust keyword set the escaping helpers guard against.  No claim depends on the
exact list. -/
def reserved_words : List String :=
  ["as", "break", "const", "continue", "crate", "dyn", "else", "enum",
   "extern", "false", "fn", "for", "if", "impl", "in", "let", "loop", "match",
   "mod", "move", "mut", "pub", "ref", "return", "self", "Self", "static",
   "struct", "super", "trait", "true", "type", "unsafe", "use", "where",
   "while", "async", "await", "abstract", "become", "box", "do", "final",
   "override", "priv", "try", "typeof", "unsized", "virtual", "yield"]

/-- `is_reserved_word`. -/
def is_reserved_word (s : String) : Bool := reserved_words.contains s

/-- `docs` (`syntax/item.rs`): each line of the doc text as a `///` line. -/
def docs (item : Item) : String :=
  match item.docs with
  | some d => String.join ((s_lines d).map (fun line => "/// " ++ line ++ "\n"))
  | Option.none => ""

/-- `render_vis` (`syntax/item.rs`). -/
def render_vis (item : Item) : String :=
  match item.visibility with
  | Visibility.public => "pub "
  | Visibility.other => ""

/-- `render_name` (`syntax/item.rs`). -/
def render_name (item : Item) : String :=
  match item.name with
  | Option.none => "?"
  | some n => if is_reserved_word n then "r#" ++ n else n

/-- `is_visible` (`render/items.rs` and `render/impls.rs`, identical): render
when private items are enabled or the item is public. -/
def is_visible (s : RenderState) (item : Item) : Bool :=
  s.config.render_private_items || decide (item.visibility = Visibility.public)

/-- `SelectionView` (`render/items.rs`): how the active selection affects an
item's children. -/
structure SelectionView where
  active : Bool
  expands_self : Bool

/-- `SelectionView::new`. -/
def SelectionView.new (state : RenderState) (id : Id)
    (expands_when_inactive : Bool) : SelectionView :=
  let active := state.selection.isSome
  ⟨active, if active then selection_expands state id else expands_when_inactive⟩

/-- `SelectionView::includes_child`. -/
def SelectionView.includes_child (v : SelectionView) (state : RenderState)
    (child_id : Id) : Bool :=
  if !v.active then true
  else v.expands_self || selection_context_contains state child_id

/-- `SelectionView::force_children`. -/
def SelectionView.force_children (v : SelectionView) : Bool :=
  v.active && v.expands_self

/-! ## Implementation blocks (`crates/libruskel/src/render/impls.rs`) -/

/-- `DERIVE_TRAITS`: traits rendered via `#[derive(..)]` annotations instead
of explicit impl blocks. -/
def DERIVE_TRAITS : List String :=
  ["Clone", "Copy", "Debug", "Default", "Display", "Eq", "Error", "FromStr",
   "Hash", "Ord", "PartialEq", "PartialOrd", "Send", "StructuralPartialEq",
   "Sync", "Serialize", "Deserialize"]

/-- `should_render_impl`: suppress synthetic impls (unless auto impls are
requested), impls whose *full* trait path string is a `DERIVE_TRAITS` entry,
and blanket impls. -/
def should_render_impl (impl_ : Impl) (render_auto_impls : Bool) : Bool :=
  if impl_.is_synthetic && !render_auto_impls then false
  else if DERIVE_TRAITS.contains (((impl_.trait_).map RPath.path).getD "") then false
  else if impl_.blanket_impl.isSome then false
  else true

/-- `collect_inline_traits` (`render/items.rs`): the trait names shown in the
`#[derive(..)]` line for an impl list — non-synthetic impls whose trait
path's *last* `::` segment is a `DERIVE_TRAITS` entry.  The Rust loop panics
(`must_get`/`extract_item!`) on a dangling id or a non-impl item; both are
unreachable for a well-formed graph and are modelled as skips. -/
def collect_inline_traits (state : RenderState) : List Id → List String
  | [] => []
  | impl_id :: rest =>
    let tail := collect_inline_traits state rest
    match state.crate_data.index impl_id with
    | some impl_item =>
      match impl_item.inner with
      | ItemEnum.implBlock impl_ =>
        if impl_.is_synthetic then tail
        else
          match impl_.trait_ with
          | some trait_ =>
            match (s_split_on trait_.path "::").getLast? with
            | some name =>
              if DERIVE_TRAITS.contains name then name :: tail else tail
            | Option.none => tail
          | Option.none => tail
      | _ => tail
    | Option.none => tail

/-- `render_function` (`render/impls.rs`; `render_function_item` in
`render/items.rs` is byte-identical): qualifiers in const/async/unsafe order,
then the signature; trait methods without a body end in `;`, everything else
in an empty body. -/
def render_function_args (sig : FunctionSignature) : String :=
  String.intercalate ", " (sig.inputs.map (fun arg =>
    if arg.1 = "self" then
      match arg.2 with
      | RType.borrowedRef _ is_mutable _ =>
        if is_mutable then "&mut self" else "&self"
      | RType.resolvedPath _ path =>
        -- `path.args.is_none()` holds throughout this embedding
        if path = "Self" then "self" else "self: " ++ render_type arg.2
      | RType.generic n =>
        if n = "Self" then "self" else "self: " ++ render_type arg.2
      | _ => "self: " ++ render_type arg.2
    else arg.1 ++ ": " ++ render_type arg.2))

/-- `render_return_type` (`syntax/function.rs`). -/
def render_return_type (sig : FunctionSignature) : String :=
  match sig.output with
  | some ty => "-> " ++ render_type ty
  | Option.none => ""

/-- See `render_function_args`. -/
def render_function (item : Item) (function : Function)
    (is_trait_method : Bool) : String :=
  let prefixes :=
    (if function.header.is_const then ["const"] else []) ++
    (if function.header.is_async then ["async"] else []) ++
    (if function.header.is_unsafe then ["unsafe"] else [])
  let head := docs item ++
    render_vis item ++ " " ++ String.intercalate " " prefixes ++ " fn " ++
    render_name item ++ render_generics function.generics ++ "(" ++
    render_function_args function.sig ++ ")" ++
    render_return_type function.sig ++ render_where_clause function.generics
  if is_trait_method && !function.has_body then head ++ ";\n\n"
  else head ++ " \x7b\x7d\n\n"

/-- `render_constant` (`render/impls.rs`; `render_constant_item` in
`render/items.rs` is byte-identical). -/
def render_constant (item : Item) (type_ : RType) (const_ : Constant) : String :=
  docs item ++ render_vis item ++ "const " ++ render_name item ++ ": " ++
    render_type type_ ++ " = " ++ const_.expr ++ ";\n\n"

/-- `render_type_alias` (`render/impls.rs`; `render_type_alias_item` in
`render/items.rs` is byte-identical). -/
def render_type_alias (item : Item) (type_alias : TypeAlias) : String :=
  docs item ++ render_vis item ++ "type " ++ render_name item ++
    render_generics type_alias.generics ++
    render_where_clause type_alias.generics ++
    "= " ++ render_type type_alias.type_ ++ ";\n\n"

/-- `render_associated_type` (`syntax/item.rs`). -/
def render_associated_type (item : Item) (bounds : List GenericBound)
    (default : Option RType) : String :=
  let bounds_str :=
    if bounds.isEmpty then "" else ": " ++ render_generic_bounds bounds
  let default_str :=
    match default with
    | some d => " = " ++ render_type d
    | Option.none => ""
  "type " ++ render_name item ++ bounds_str ++ default_str ++ ";\n"

/-- `render_impl_item` (`render/impls.rs`): selection and filter gates, then
dispatch on the member kind (anything else renders nothing). -/
def render_impl_item (state : RenderState) (path : String) (item : Item)
    (include_all : Bool) : String :=
  if !include_all && !selection_context_contains state item.id then ""
  else if should_filter_skip state path item then ""
  else
    match item.inner with
    | ItemEnum.function f => render_function item f false
    | ItemEnum.constant type_ const_ => render_constant item type_ const_
    | ItemEnum.assocType bounds type_ => render_associated_type item bounds type_
    | ItemEnum.typeAlias t => render_type_alias item t
    | _ => ""

/-- One member of an impl block, exactly as the member loop of `render_impl`
treats it: a dangling id contributes nothing (`if let Some`), and a member is
rendered only if allowed by the selection and — for inherent impls — visible. -/
def impl_member_render (state : RenderState) (path : String) (impl_ : Impl)
    (selection_active expand_children : Bool) (item_id : Id) : String :=
  match state.crate_data.index item_id with
  | some item =>
    let is_trait_impl := impl_.trait_.isSome
    if (!selection_active || expand_children || selection_context_contains state item_id)
        && (is_trait_impl || is_visible state item) then
      render_impl_item state path item expand_children
    else ""
  | Option.none => ""

/-- `expand_children` as computed at the head of `render_impl`:
`!selection_active || state.selection_expands(&item.id) || parent_expanded`. -/
def impl_expand_children (state : RenderState) (item : Item) (impl_ : Impl) : Bool :=
  let parent_expanded :=
    match impl_.for_ with
    | RType.resolvedPath pid _ => selection_expands state pid
    | _ => false
  !state.selection.isSome || selection_expands state item.id || parent_expanded

/-- The member texts produced by the member loop of `render_impl`, in member
order (an unrendered member contributes the empty string). -/
def render_impl_members (state : RenderState) (path : String) (item : Item)
    (impl_ : Impl) : List String :=
  impl_.items.map
    (impl_member_render state (ppush path (render_type impl_.for_)) impl_
      state.selection.isSome (impl_expand_children state item impl_))

/-- `render_impl` (`render/impls.rs`).  Returns the empty string when the
selection excludes the block, when the impl's trait is an item of the graph
that fails the visibility gate, or when no member renders any text; otherwise
the head plus the rendered members. -/
def render_impl (state : RenderState) (path : String) (item : Item) : String :=
  match item.inner with
  | ItemEnum.implBlock impl_ =>
    if !selection_context_contains state item.id then ""
    else
      let trait_suppressed :=
        match impl_.trait_ with
        | some trait_ =>
          match state.crate_data.index trait_.id with
          | some trait_item => !is_visible state trait_item
          | Option.none => false
        | Option.none => false
      if trait_suppressed then ""
      else
        let where_clause := render_where_clause impl_.generics
        let trait_part :=
          match impl_.trait_ with
          | some trait_ =>
            let trait_path := render_path trait_
            if !s_is_empty trait_path then trait_path ++ " for " else ""
          | Option.none => ""
        let head := docs item ++
          (if impl_.is_unsafe then "unsafe " else "") ++ "impl" ++
          render_generics impl_.generics ++ " " ++ trait_part ++
          render_type impl_.for_
        let head :=
          if !s_is_empty where_clause then head ++ "\n" ++ where_clause else head
        let head := head ++ " \x7b\n"
        let rendered_members := render_impl_members state path item impl_
        let has_content := rendered_members.any (fun s => !s_is_empty s)
        if !has_content then ""
        else head ++ String.join rendered_members ++ "\x7d\n\n"
  | _ => ""  -- `extract_item!` panics on a non-impl item; unreachable

/-! ## Struct rendering (`crates/libruskel/src/render/items.rs`) -/

/-- `StructRenderContext`. -/
structure StructRenderContext where
  item : Item
  generics : String
  where_clause : String
  selection : SelectionView

/-- `StructRenderContext::new` (selection view with
`expands_when_inactive = false`). -/
def StructRenderContext.new (state : RenderState) (item : Item)
    (generics where_clause : String) : StructRenderContext :=
  ⟨item, generics, where_clause, SelectionView.new state item.id false⟩

/-- `render_struct_unit`. -/
def render_struct_unit (ctx : StructRenderContext) : String :=
  render_vis ctx.item ++ "struct " ++ render_name ctx.item ++ ctx.generics ++
    ctx.where_clause ++ ";\n\n"

/-- The per-field entry of `render_struct_tuple`'s `filter_map`: a missing
field id or a selection-excluded field yields no entry; a field failing the
visibility gate yields the placeholder `_`; a visible field yields its
visibility modifier plus its type.  (`must_get`/`extract_item!` panic on a
dangling id or non-field item; unreachable for a well-formed graph, modelled
as no entry.) -/
def tuple_field_entry (state : RenderState) (selection : SelectionView)
    (field : Option Id) : Option String :=
  field.bind (fun id =>
    if !selection.includes_child state id then Option.none
    else
      match state.crate_data.index id with
      | some field_item =>
        match field_item.inner with
        | ItemEnum.structField ty =>
          if !is_visible state field_item then some "_"
          else some (render_vis field_item ++ render_type ty)
        | _ => Option.none
      | Option.none => Option.none)

/-- `render_struct_tuple`: the comma-joined field entries; the declaration is
emitted only when the selection expands the struct or some entry rendered. -/
def render_struct_tuple (state : RenderState) (ctx : StructRenderContext)
    (fields : List (Option Id)) : Option String :=
  let fields_str := String.intercalate ", "
    (fields.filterMap (tuple_field_entry state ctx.selection))
  if ctx.selection.expands_self || !s_is_empty fields_str then
    some (render_vis ctx.item ++ "struct " ++ render_name ctx.item ++
      ctx.generics ++ "(" ++ fields_str ++ ")" ++ ctx.where_clause ++ ";\n\n")
  else
    Option.none

/-- `render_struct_field` (named fields). -/
def render_struct_field (state : RenderState) (field_id : Id)
    (force : Bool) : String :=
  match state.crate_data.index field_id with
  | some field_item =>
    if state.selection.isSome && !force && !selection_context_contains state field_id
    then ""
    else if !(force || is_visible state field_item) then ""
    else
      match field_item.inner with
      | ItemEnum.structField ty =>
        docs field_item ++ render_vis field_item ++ render_name field_item ++
          ": " ++ render_type ty ++ ",\n"
      | _ => ""  -- `extract_item!` panics; unreachable
  | Option.none => ""  -- `must_get` panics; unreachable

/-- `render_struct_plain`. -/
def render_struct_plain (state : RenderState) (ctx : StructRenderContext)
    (fields : List Id) : String :=
  render_vis ctx.item ++ "struct " ++ render_name ctx.item ++ ctx.generics ++
    ctx.where_clause ++ " \x7b\n" ++
    String.join (fields.map (fun f =>
      render_struct_field state f ctx.selection.force_children)) ++
    "\x7d\n\n"

/-- `render_struct`: docs, the `#[derive(..)]` line collected from the impl
list, the kind-specific declaration, then every impl block that passes
`should_render_impl` and the selection. -/
def render_struct (state : RenderState) (path : String) (item : Item) : String :=
  match item.inner with
  | ItemEnum.structItem struct_ =>
    if !selection_context_contains state item.id then ""
    else
      let generics := render_generics struct_.generics
      let where_clause := render_where_clause struct_.generics
      let ctx := StructRenderContext.new state item generics where_clause
      let inline_traits := collect_inline_traits state struct_.impls
      let derive_line :=
        if !inline_traits.isEmpty then
          "#[derive(" ++ String.intercalate ", " inline_traits ++ ")]\n"
        else ""
      let body :=
        match struct_.kind with
        | StructKind.unit => render_struct_unit ctx
        | StructKind.tuple fields =>
          ((render_struct_tuple state ctx fields).getD "")
        | StructKind.plain fields => render_struct_plain state ctx fields
      let impls_out := String.join (struct_.impls.map (fun impl_id =>
        match state.crate_data.index impl_id with
        | some impl_item =>
          match impl_item.inner with
          | ItemEnum.implBlock impl_ =>
            if should_render_impl impl_ state.config.render_auto_impls
                && selection_allows_child state item.id impl_id then
              render_impl state path impl_item
            else ""
          | _ => ""  -- `extract_item!` panics; unreachable
        | Option.none => ""  -- `must_get` panics; unreachable
        ))
      docs item ++ derive_line ++ body ++ impls_out
  | _ => ""  -- `extract_item!` panics; unreachable

/-! ## `render_item` and modules (`crates/libruskel/src/render/items.rs`)

`render_item` and `render_module` are mutually recursive through module
children; the recursion is bounded here by a fuel argument (the nesting depth
of the walk), decremented on each descent into a module body.  With fuel at
least the module-nesting depth of the graph the model coincides with the Rust
recursion. -/

/-- `render_module` with the recursive child renderer abstracted
(`render_item` is tied back in below): the module head, the `//!` doc lines
when `should_module_doc` allows them, then the recursively rendered children
(`must_get` panics on a dangling id; unreachable, modelled as a skip). -/
def render_module_with (state : RenderState) (recur : String → Item → String)
    (path : String) (item : Item) (m : Module) : String :=
  let path2 := ppush path (render_name item)
  let doc_part :=
    if should_module_doc state path2 item then
      match item.docs with
      | some d =>
        String.join ((s_lines d).map (fun line => "    //! " ++ line ++ "\n")) ++
          "\n"
      | Option.none => ""
    else ""
  render_vis item ++ "mod " ++ render_name item ++ " \x7b\n" ++ doc_part ++
    String.join (m.items.map (fun child_id =>
      match state.crate_data.index child_id with
      | some child => recur path2 child
      | Option.none => ""
      )) ++
    "\x7d\n\n"

/-- `render_item`: selection gate, filter gate, kind dispatch, then the final
visibility gate — the computed output is discarded for a non-visible item
unless `force_private` is set (re-export forcing).  The mutual recursion with
`render_module` is bounded by the fuel, decremented on each descent into a
module body; with fuel at least the module-nesting depth the model coincides
with the Rust recursion.  The enum/trait/use arms of the source dispatch to
renderers outside the embedded fragment and, like the kinds the source sends
to `_ => String::new()`, render nothing here; no theorem below touches those
kinds. -/
def render_item (state : RenderState) : Nat → String → Item → Bool → String
  | fuel, path, item, force_private =>
    if !selection_context_contains state item.id then ""
    else if should_filter_skip state path item then ""
    else
      let output :=
        match item.inner with
        | ItemEnum.module m =>
          render_module_with state
            (fun p c =>
              match fuel with
              | 0 => ""  -- fuel exhausted; unreachable with enough fuel
              | f + 1 => render_item state f p c false)
            path item m
        | ItemEnum.structItem _ => render_struct state path item
        | ItemEnum.function f => render_function item f false
        | ItemEnum.constant type_ const_ => render_constant item type_ const_
        | ItemEnum.typeAlias t => render_type_alias item t
        | _ => ""
      if !force_private && !is_visible state item then "" else output

/-- `render_module`, tied back to `render_item`: children render at the given
fuel. -/
def render_module (state : RenderState) (fuel : Nat) (path : String)
    (item : Item) (m : Module) : String :=
  render_module_with state (fun p c => render_item state fuel p c false)
    path item m

/-! ## Markdown conversion (`crates/ripdoc-render/src/core.rs`) -/

/-- `is_doc_comment`. -/
def is_doc_comment (line : String) : Bool :=
  s_starts_with line "///" || s_starts_with line "//!"

/-- `strip_doc_comment`: remove the doc-comment marker and at most one
following space. -/
def strip_doc_comment (line : String) : String :=
  if s_starts_with line "///" then
    let rest := s_drop line 3
    if s_starts_with rest " " then s_drop rest 1 else rest
  else if s_starts_with line "//!" then
    let rest := s_drop line 3
    if s_starts_with rest " " then s_drop rest 1 else rest
  else line

/-- One entry of `collect_doc_block`: the line's leading whitespace and its
doc text with the marker stripped and trailing whitespace trimmed. -/
def doc_line_data (line : String) : String × String :=
  (String.mk (line.toList.takeWhile Char.isWhitespace),
   s_trim_right (strip_doc_comment (s_trim_left line)))

/-- `collect_doc_block` on the lines *after* the first: the maximal run of
doc-comment lines (the peek loop of the source), plus the remaining lines. -/
def collect_doc_block : List String → List (String × String) × List String
  | [] => ([], [])
  | line :: rest =>
    if is_doc_comment (s_trim_left line) then
      (doc_line_data line :: (collect_doc_block rest).1, (collect_doc_block rest).2)
    else ([], line :: rest)

/-- `unhide_doctest_line`: hide doctest setup lines starting with `#`. -/
def unhide_doctest_line (line : String) : Option String :=
  if s_starts_with (s_trim_left line) "#" then Option.none else some line

/-- `normalize_doc_lang`: remap doctest fence language tags.  The primary tag
is the part before the first comma, trimmed. -/
def normalize_doc_lang (lang : String) : Option String :=
  let primary := s_trim ((s_split_on lang ",").headD "")
  if primary = "" then some "rust"
  else if primary = "rust" then some "rust"
  else if primary = "no_run" ∨ primary = "compile_fail" ∨
          primary = "should_panic" ∨ primary = "ignore" then some "rust"
  else if primary = "text" then some ""
  else Option.none

/-- The loop of `render_doc_block`, with the `fence_open`/`contains_text`
state and the accumulated markdown made explicit. -/
def render_doc_block_aux :
    List (String × String) → Bool → Bool → String → String × Bool
  | [], fence_open, contains_text, md =>
    (if fence_open then md ++ "```\n\n" else md, contains_text)
  | entry :: rest, fence_open, contains_text, md =>
    let trimmed_end := s_trim_right entry.2
    let trimmed_start := s_trim_left trimmed_end
    if s_starts_with trimmed_start "```" then
      let lang := s_trim (s_drop trimmed_start 3)
      match normalize_doc_lang lang with
      | some mapped =>
        let md :=
          if fence_open then md ++ "```\n\n" else md ++ "```" ++ mapped ++ "\n"
        render_doc_block_aux rest (!fence_open) contains_text md
      | Option.none =>
        render_doc_block_aux rest (!fence_open) contains_text
          (md ++ trimmed_start ++ "\n")
    else
      let line_to_write :=
        if fence_open then unhide_doctest_line trimmed_end else some trimmed_start
      match line_to_write with
      | Option.none => render_doc_block_aux rest fence_open contains_text md
      | some l =>
        let contains_text :=
          if !s_is_empty l && !fence_open then true else contains_text
        render_doc_block_aux rest fence_open contains_text (md ++ l ++ "\n")

/-- `render_doc_block`: the markdown text appended for a doc block, plus the
`contains_text` flag the caller stores in `need_gap_before_code`. -/
def render_doc_block (doc_block : List (String × String)) : String × Bool :=
  render_doc_block_aux doc_block false false ""

/-- `dedent_lines`: strip the common leading space/tab count from the
nonblank lines. -/
def dedent_lines (lines : List String) : String :=
  let indents := lines.filterMap (fun l =>
    if s_is_empty (s_trim l) then Option.none
    else some ((l.toList.takeWhile (fun c => c = ' ' ∨ c = '\t')).length))
  let min_indent := match indents with
    | [] => 0
    | i :: rest => rest.foldl Nat.min i
  String.join (lines.map (fun l =>
    if s_is_empty (s_trim l) then "\n"
    else String.mk (l.toList.drop (Nat.min min_indent l.toList.length)) ++ "\n"))

/-- `flush_code_block`: emit the buffered non-doc lines as one ` ```rust `
fence (nothing if the buffer holds only blank lines), inserting a blank-line
gap after doc text; returns the markdown and the updated
`need_gap_before_code`.  The caller clears the buffer. -/
def flush_code_block (md : String) (buf : List String) (need_gap : Bool) :
    String × Bool :=
  if buf.isEmpty || buf.all (fun l => s_is_empty (s_trim l)) then (md, need_gap)
  else
    let md :=
      if need_gap && !s_is_empty md then
        (if !s_ends_with md "\n" then md ++ "\n" else md) ++ "\n"
      else md
    (md ++ "```rust\n" ++ dedent_lines buf ++ "```\n\n", false)

/-- The loop of `normalize_spacing`, carrying the emitted lines (inspected
through `last()`) and the fence flag; the source's `idx + 1` lookahead is the
head of the remaining lines. -/
def normalize_spacing_loop : List String → Bool → List String → List String
  | [], _, result => result
  | line :: rest, in_fence, result =>
    let trimmed := s_trim line
    if s_starts_with trimmed "```" then
      let result :=
        if in_fence &&
            ((result.getLast?.map (fun p => s_is_empty (s_trim p))).getD false)
        then result.dropLast else result
      normalize_spacing_loop rest (!in_fence) (result ++ [line])
    else if s_is_empty trimmed then
      if (result.getLast?.map (fun p => s_is_empty (s_trim p))).getD false then
        normalize_spacing_loop rest in_fence result
      else
        let next_is_closing := in_fence &&
          ((rest.head?.map (fun next => s_starts_with (s_trim next) "```")).getD false)
        if next_is_closing then normalize_spacing_loop rest in_fence result
        else normalize_spacing_loop rest in_fence (result ++ [""])
    else normalize_spacing_loop rest in_fence (result ++ [line])

/-- `normalize_spacing`. -/
def normalize_spacing (input : String) : String :=
  String.intercalate "\n" (normalize_spacing_loop (s_lines input) false [])

/-- The main loop of `rust_to_markdown`, fuel-indexed: every step consumes at
least one input line, so fuel `lines.length + 1` (as supplied by the wrapper)
never runs out. -/
def rust_to_markdown_loop :
    Nat → List String → Bool → Bool → List String → String → String
  | _, [], _, need_gap, buf, md => (flush_code_block md buf need_gap).1
  | 0, _ :: _, _, need_gap, buf, md => (flush_code_block md buf need_gap).1
  | fuel + 1, line :: rest, in_code, need_gap, buf, md =>
    let trimmed := s_trim_left line
    if is_doc_comment trimmed then
      let doc_tail := collect_doc_block rest
      let doc_block := doc_line_data line :: doc_tail.1
      let is_inner_doc := s_starts_with trimmed "///"
      let head_entry := doc_block.headD ("", "")
      let inline_doc := in_code && is_inner_doc && doc_block.length = 1 &&
        !s_is_empty (s_trim head_entry.2)
      if inline_doc then
        rust_to_markdown_loop fuel doc_tail.2 in_code need_gap
          (buf ++ [head_entry.1 ++ "// " ++ s_trim head_entry.2]) md
      else
        let flushed := flush_code_block md buf need_gap
        let rendered := render_doc_block doc_block
        rust_to_markdown_loop fuel doc_tail.2 false rendered.2 []
          (flushed.1 ++ rendered.1)
    else if s_is_empty trimmed then
      if in_code then
        rust_to_markdown_loop fuel rest in_code need_gap (buf ++ [""]) md
      else
        let md := if !s_is_empty md && !s_ends_with md "\n" then md ++ "\n" else md
        rust_to_markdown_loop fuel rest in_code need_gap buf md
    else
      rust_to_markdown_loop fuel rest true need_gap (buf ++ [line]) md

/-- `rust_to_markdown`. -/
def rust_to_markdown (source : String) : String :=
  let lines := s_lines source
  s_trim (normalize_spacing
    (rust_to_markdown_loop (lines.length + 1) lines false false [] ""))

/-! ## `Ripdoc::render` empty-output fallback (`crates/ripdoc-core/src/lib.rs`) -/

/-- `is_empty_output`: after removing all whitespace, the text starts with
`pubmod`, ends with `{}` and contains exactly one opening brace. -/
def is_empty_output (rendered : String) : Bool :=
  let normalized := String.mk (rendered.toList.filter (fun c => !c.isWhitespace))
  s_starts_with normalized "pubmod" && s_ends_with normalized "\x7b\x7d" &&
    (normalized.toList.count '\x7b' == 1)

/-- The private-items control flow of `Ripdoc::render`: `public_rendered` is
the rendering produced with the caller's `private_items` flag set to `false`,
`private_rendered` the rendering with private items forced on (target
resolution and crate reading are external collaborators; their error paths
are outside this model).  The function returns what `Ripdoc::render` returns:
the requested rendering, except that an essentially-empty public rendering is
replaced by the private-inclusive one. -/
def ripdoc_render (private_items : Bool)
    (public_rendered private_rendered : String) : String :=
  let rendered := if private_items then private_rendered else public_rendered
  if !private_items && is_empty_output rendered then private_rendered
  else rendered

/-! ## Statement-support definitions -/

/-- Whether a generic bound is the precise-capturing `use<..>` form. -/
def is_use_bound : GenericBound → Bool
  | GenericBound.use _ => true
  | _ => false

/-- The text a fence-open doc block body contributes in `render_doc_block`:
each line trimmed on the right, doctest setup lines hidden, others emitted
with a newline. -/
def doc_fence_body_out : List (String × String) → String
  | [] => ""
  | entry :: rest =>
    (match unhide_doctest_line (s_trim_right entry.2) with
     | some l => l ++ "\n"
     | Option.none => "") ++ doc_fence_body_out rest

/-- The expected entry of the tuple-field list for one field of a
well-formed graph: `_` for a field failing the visibility gate, the
visibility modifier plus the type otherwise (the fall-through arms are
unreachable under the well-formedness hypotheses of the theorems below). -/
def expected_tuple_entry (state : RenderState) : Option Id → String
  | some id =>
    match state.crate_data.index id with
    | some field_item =>
      match field_item.inner with
      | ItemEnum.structField ty =>
        if !is_visible state field_item then "_"
        else render_vis field_item ++ render_type ty
      | _ => ""
    | Option.none => ""
  | Option.none => ""

/-- Whether a visit of the depth-first walk marks the filter as matched: a
non-root item whose path classifies as an exact `Hit`. -/
def visit_is_hit (config : Renderer) (root : Id) (visit : String × Item) : Prop :=
  visit.2.id ≠ root ∧ filter_match config visit.1 visit.2 = FilterMatch.Hit

/-! ## Concrete fixtures

Small item graphs used by the closed theorems and witnesses below.  They
mirror the repository's own integration tests (`ripdoc-core/tests`). -/

/-- A bodyless-rendered function item (signature-only). -/
def fx_fn_item (id : Id) (n : String) (vis : Visibility) : Item :=
  ⟨id, some n, vis, Option.none,
    ItemEnum.function ⟨⟨[], Option.none⟩, Generics.empty, ⟨false, false, false⟩, true⟩⟩

/-- A renderer configuration with everything off (the default render). -/
def fx_config : Renderer := ⟨false, false, "", Option.none⟩

/-- C1 fixture: `pub struct Foo;` carrying one non-synthetic, non-blanket
implementation `impl fmt::Display for Foo` (a multi-segment allow-listed
trait path) with one public method. -/
def derive_dup_impl : Impl :=
  ⟨false, Generics.empty, some ⟨40, "fmt::Display"⟩, RType.resolvedPath 1 "Foo",
    [30], false, Option.none⟩

/-- See `derive_dup_impl`. -/
def derive_dup_struct_item : Item :=
  ⟨1, some "Foo", Visibility.public, Option.none,
    ItemEnum.structItem ⟨StructKind.unit, Generics.empty, [20]⟩⟩

/-- See `derive_dup_impl`. -/
def derive_dup_index : Id → Option Item := fun id =>
  if id = 1 then some derive_dup_struct_item
  else if id = 20 then
    some ⟨20, Option.none, Visibility.other, Option.none,
      ItemEnum.implBlock derive_dup_impl⟩
  else if id = 30 then some (fx_fn_item 30 "fmt" Visibility.public)
  else Option.none

/-- See `derive_dup_impl`. -/
def derive_dup_state : RenderState := ⟨fx_config, ⟨0, derive_dup_index⟩⟩

/-- C2 fixture: the field items of
`pub struct PrivateFieldsTuple(pub i32, String, pub bool);`
(mirrors `ripdoc-core/tests/structs.rs`). -/
def tuple_index : Id → Option Item := fun id =>
  if id = 11 then
    some ⟨11, some "0", Visibility.public, Option.none,
      ItemEnum.structField (RType.primitive "i32")⟩
  else if id = 12 then
    some ⟨12, some "1", Visibility.other, Option.none,
      ItemEnum.structField (RType.resolvedPath 90 "String")⟩
  else if id = 13 then
    some ⟨13, some "2", Visibility.public, Option.none,
      ItemEnum.structField (RType.primitive "bool")⟩
  else Option.none

/-- See `tuple_index`. -/
def tuple_state : RenderState := ⟨fx_config, ⟨0, tuple_index⟩⟩

/-- See `tuple_index`. -/
def tuple_item : Item :=
  ⟨10, some "PrivateFieldsTuple", Visibility.public, Option.none,
    ItemEnum.structItem
      ⟨StructKind.tuple [some 11, some 12, some 13], Generics.empty, []⟩⟩

/-- C3 fixture: a private function, rendered with and without
private-item rendering (mirrors the visibility round-trip test). -/
def hidden_fn_item : Item := fx_fn_item 5 "hidden" Visibility.other

/-- See `hidden_fn_item`. -/
def hidden_fn_index : Id → Option Item := fun id =>
  if id = 5 then some hidden_fn_item else Option.none

/-- See `hidden_fn_item`. -/
def hidden_fn_state_default : RenderState :=
  ⟨⟨false, false, "", Option.none⟩, ⟨0, hidden_fn_index⟩⟩

/-- See `hidden_fn_item`. -/
def hidden_fn_state_private : RenderState :=
  ⟨⟨false, true, "", Option.none⟩, ⟨0, hidden_fn_index⟩⟩

/-- C4 fixture: an item whose canonical path below the root is exactly the
configured filter `target`. -/
def filter_hit_item : Item :=
  ⟨7, some "target", Visibility.public, Option.none, ItemEnum.traitDecl⟩

/-- See `filter_hit_item`. -/
def filter_config : Renderer := ⟨false, false, "target", Option.none⟩

/-- C7 fixture: `pub struct Foo` with `impl Bar for Foo` where the trait
`Bar` is a private item of the graph and the impl has a public method. -/
def trait_vis_impl : Impl :=
  ⟨false, Generics.empty, some ⟨10, "Bar"⟩, RType.resolvedPath 1 "Foo", [30],
    false, Option.none⟩

/-- See `trait_vis_impl`. -/
def trait_vis_trait_item : Item :=
  ⟨10, some "Bar", Visibility.other, Option.none, ItemEnum.traitDecl⟩

/-- See `trait_vis_impl`. -/
def trait_vis_impl_item : Item :=
  ⟨20, Option.none, Visibility.other, Option.none,
    ItemEnum.implBlock trait_vis_impl⟩

/-- See `trait_vis_impl`. -/
def trait_vis_index : Id → Option Item := fun id =>
  if id = 1 then
    some ⟨1, some "Foo", Visibility.public, Option.none,
      ItemEnum.structItem ⟨StructKind.unit, Generics.empty, [20]⟩⟩
  else if id = 10 then some trait_vis_trait_item
  else if id = 20 then some trait_vis_impl_item
  else if id = 30 then some (fx_fn_item 30 "run" Visibility.public)
  else Option.none

/-- See `trait_vis_impl`. -/
def trait_vis_state : RenderState := ⟨fx_config, ⟨0, trait_vis_index⟩⟩

/-- C8 fixture: a doc comment with text and a `compile_fail` doctest fence,
followed by a declaration line (mirrors `normalizes_compile_fail_blocks`). -/
def markdown_source : String :=
  "/// intro\n///\n/// ```compile_fail\n/// let x = 1\n/// ```\npub fn demo();\n"

/-! # Helper lemmas -/

theorem s_is_empty_append (a b : String) :
    s_is_empty (a ++ b) = (s_is_empty a && s_is_empty b) := by
  show ((a ++ b).data).isEmpty = (a.data.isEmpty && b.data.isEmpty)
  rw [String.data_append]
  cases a.data <;> cases b.data <;> rfl

theorem ne_empty_of_s_is_empty_false {s : String} (h : s_is_empty s = false) :
    s ≠ "" := by
  intro he
  subst he
  exact absurd h (by decide)

theorem intercalate_go_decomp (sep : String) (l : List String) :
    ∀ acc : String, ∃ t, String.intercalate.go acc sep l = acc ++ t := by
  induction l with
  | nil =>
    intro acc
    exact ⟨"", (String.append_empty acc).symm⟩
  | cons a as ih =>
    intro acc
    obtain ⟨t, ht⟩ := ih (acc ++ sep ++ a)
    refine ⟨sep ++ (a ++ t), ?_⟩
    have h1 : String.intercalate.go acc sep (a :: as) =
        String.intercalate.go (acc ++ sep ++ a) sep as := rfl
    rw [h1, ht, String.append_assoc, String.append_assoc]

theorem s_is_empty_intercalate_cons (e : String) (rest : List String)
    (h : s_is_empty e = false) :
    s_is_empty (String.intercalate ", " (e :: rest)) = false := by
  obtain ⟨t, ht⟩ := intercalate_go_decomp ", " rest e
  have h1 : String.intercalate ", " (e :: rest) = String.intercalate.go e ", " rest := rfl
  rw [h1, ht, s_is_empty_append, h]
  rfl

theorem string_foldl_append (l : List String) :
    ∀ acc : String,
      l.foldl (fun r s => r ++ s) acc = acc ++ l.foldl (fun r s => r ++ s) "" := by
  induction l with
  | nil => intro acc; simp
  | cons x xs ih =>
    intro acc
    rw [List.foldl_cons, List.foldl_cons, ih (acc ++ x), ih ("" ++ x),
      String.empty_append, String.append_assoc]

theorem string_join_cons (a : String) (l : List String) :
    String.join (a :: l) = a ++ String.join l := by
  show (a :: l).foldl (fun r s => r ++ s) "" = a ++ l.foldl (fun r s => r ++ s) ""
  rw [List.foldl_cons, string_foldl_append l ("" ++ a), String.empty_append]

theorem string_join_split {l : List String} {s : String} (h : s ∈ l) :
    ∃ pre post, String.join l = pre ++ s ++ post := by
  induction l with
  | nil => cases h
  | cons a t ih =>
    rcases List.mem_cons.mp h with rfl | h2
    · exact ⟨"", String.join t, by rw [string_join_cons, String.empty_append]⟩
    · obtain ⟨pre, post, hp⟩ := ih h2
      exact ⟨a ++ pre, post, by
        rw [string_join_cons, hp]
        simp [String.append_assoc]⟩

/-! # Claim theorems -/

/-- C6: `RenderSelection::new` establishes the invariant `matches ⊆ context`
for arbitrary caller-supplied sets — including a context not already
containing the matches, because every match id is inserted into the context —
and the accessors expose exactly the constructed, never-mutated sets. -/
theorem c6_selection_invariant (ms context expanded : Finset Id) :
    (RenderSelection.new ms context expanded).matches_ ⊆
      (RenderSelection.new ms context expanded).context ∧
    (RenderSelection.new ms context expanded).matches_ = ms ∧
    (RenderSelection.new ms context expanded).context = context ∪ ms ∧
    (RenderSelection.new ms context expanded).expanded = expanded :=
  ⟨Finset.subset_union_right, rfl, rfl, rfl⟩

/-- C10: `Ripdoc::render` with `private_items = false` does not always honor
the flag: when the public-only rendering is essentially empty (per
`is_empty_output`) the private-inclusive rendering is returned instead;
otherwise the public rendering is returned. -/
theorem c10_empty_output_fallback (public_rendered private_rendered : String) :
    (is_empty_output public_rendered = true →
      ripdoc_render false public_rendered private_rendered = private_rendered) ∧
    (is_empty_output public_rendered = false →
      ripdoc_render false public_rendered private_rendered = public_rendered) := by
  constructor <;> intro h <;> simp [ripdoc_render, h]

/-- Witness for C10 at the concrete strings: a crate whose public skeleton is
exactly an empty `pub mod sample {}` falls back to the private-inclusive
rendering, so the default-mode result contains private items; a crate with a
visible item keeps its public rendering. -/
theorem c10_empty_output_fallback_witness :
    ripdoc_render false "pub mod sample \x7b\x7d"
        "mod sample \x7b fn secret() \x7b\x7d \x7d" =
      "mod sample \x7b fn secret() \x7b\x7d \x7d" ∧
    ripdoc_render false "pub mod sample \x7b pub fn visible(); \x7d" "other" =
      "pub mod sample \x7b pub fn visible(); \x7d" :=
  ⟨(c10_empty_output_fallback _ _).1 (by decide),
   (c10_empty_output_fallback _ _).2 (by decide)⟩

/-- C1 (code bug): for the non-synthetic, non-blanket implementation
`impl fmt::Display for Foo` — a multi-segment trait path whose final segment
is on the allow-list — `collect_inline_traits` (matching the last `::`
segment) contributes `Display` to the `#[derive(..)]` annotation while
`should_render_impl` (matching the full path string) does not suppress the
block, so the rendered struct carries both the annotation and the explicit
impl block, contrary to the documented invariant. -/
theorem c1_derive_duplication :
    collect_inline_traits derive_dup_state [20] = ["Display"] ∧
    should_render_impl derive_dup_impl false = true ∧
    render_struct derive_dup_state "" derive_dup_struct_item =
      "#[derive(Display)]\npub struct Foo;\n\nimpl fmt::Display for Foo \x7b\npub   fn fmt() \x7b\x7d\n\n\x7d\n\n" := by
  decide

/-- Counterexample for C7: an impl of a *private* trait of the graph on a
reachable public type, with a public method whose member loop would render
text, is nevertheless suppressed entirely when private rendering is disabled,
contradicting the claim that such impls are emitted unconditionally. -/
theorem c7_trait_vis_counterexample :
    is_visible trait_vis_state trait_vis_trait_item = false ∧
    trait_vis_state.config.render_private_items = false ∧
    (render_impl_members trait_vis_state "" trait_vis_impl_item
        trait_vis_impl).any (fun s => !s_is_empty s) = true ∧
    render_impl trait_vis_state "" trait_vis_impl_item = "" := by
  decide

/-- Counterexample for C8: a ` ```text ` doc fence is *not* emitted as an
unfenced block — the conversion keeps the fence markers and only empties the
language tag. -/
theorem c8_text_tag_counterexample :
    (render_doc_block [("", "```text"), ("", "hello"), ("", "```")]).1 =
      "```\nhello\n```\n\n" ∧
    (render_doc_block [("", "```text"), ("", "hello"), ("", "```")]).1 ≠
      "hello\n" := by
  decide

/-- C7 (amended): a trait implementation whose trait is an item of the graph
failing the visibility gate renders nothing at all — `render_impl` checks the
trait item's own visibility (with no forced-visibility override) before
emitting anything; only a trait absent from the index escapes this check. -/
theorem c7_trait_visibility_amended (state : RenderState) (path : String)
    (item : Item) (impl_ : Impl) (trait_ : RPath) (trait_item : Item)
    (hinner : item.inner = ItemEnum.implBlock impl_)
    (htrait : impl_.trait_ = some trait_)
    (hidx : state.crate_data.index trait_.id = some trait_item)
    (hvis : is_visible state trait_item = false) :
    render_impl state path item = "" := by
  unfold render_impl
  simp only [hinner, htrait, hidx, hvis]
  split <;> rfl

/-- Witness for C7's amended statement at the concrete fixture. -/
theorem c7_trait_visibility_amended_witness :
    render_impl trait_vis_state "" trait_vis_impl_item = "" :=
  c7_trait_visibility_amended trait_vis_state "" trait_vis_impl_item
    trait_vis_impl ⟨10, "Bar"⟩ trait_vis_trait_item rfl rfl rfl rfl

/-- The bound lists rendered after the whitespace-empty filter agree whether
or not the precise-capturing `use<..>` bounds (which render as the empty
string) are removed from the input first. -/
theorem bounds_parts_filter_use (bounds : List GenericBound) :
    ((bounds.filter (fun b => !is_use_bound b)).map render_generic_bound).filter
        (fun s => !(s_is_empty (s_trim s))) =
      (bounds.map render_generic_bound).filter
        (fun s => !(s_is_empty (s_trim s))) := by
  induction bounds with
  | nil => rfl
  | cons b rest ih =>
    cases b with
    | use args =>
      have hQ : (GenericBound.use args :: rest).filter (fun b => !is_use_bound b) =
          rest.filter (fun b => !is_use_bound b) := rfl
      have hP : ((GenericBound.use args :: rest).map render_generic_bound).filter
            (fun s => !(s_is_empty (s_trim s))) =
          (rest.map render_generic_bound).filter
            (fun s => !(s_is_empty (s_trim s))) := rfl
      rw [hQ, ih, hP]
    | traitBound t g m =>
      have hQ : (GenericBound.traitBound t g m :: rest).filter
            (fun b => !is_use_bound b) =
          GenericBound.traitBound t g m :: rest.filter (fun b => !is_use_bound b) := rfl
      rw [hQ, List.map_cons, List.map_cons, List.filter_cons, List.filter_cons, ih]
    | outlives lt =>
      have hQ : (GenericBound.outlives lt :: rest).filter
            (fun b => !is_use_bound b) =
          GenericBound.outlives lt :: rest.filter (fun b => !is_use_bound b) := rfl
      rw [hQ, List.map_cons, List.map_cons, List.filter_cons, List.filter_cons, ih]

/-- C9: `render_generic_bounds` joins the (whitespace-nonempty) rendered
bounds with `+`; every `use<..>` bound renders as the empty string and is
dropped, so the rendering of any bound list equals the rendering of the same
list with all `use<..>` bounds removed; a list of only `use<..>` bounds
renders as the empty string; and when every bound renders nonempty text the
result is exactly the `+`-joined renderings. -/
theorem c9_bounds_join :
    (∀ bounds : List GenericBound,
      render_generic_bounds bounds =
        render_generic_bounds (bounds.filter (fun b => !is_use_bound b))) ∧
    (∀ bounds : List GenericBound,
      (∀ b ∈ bounds, is_use_bound b = true) →
      render_generic_bounds bounds = "") ∧
    (∀ bounds : List GenericBound,
      (∀ b ∈ bounds, s_is_empty (s_trim (render_generic_bound b)) = false) →
      render_generic_bounds bounds =
        String.intercalate " + " (bounds.map render_generic_bound)) := by
  refine ⟨?_, ?_, ?_⟩
  · intro bounds
    unfold render_generic_bounds
    rw [bounds_parts_filter_use]
  · intro bounds h
    have hnil : bounds.filter (fun b => !is_use_bound b) = [] := by
      rw [List.filter_eq_nil_iff]
      intro b hb
      rw [h b hb]
      decide
    have h1 : render_generic_bounds bounds =
        render_generic_bounds (bounds.filter (fun b => !is_use_bound b)) := by
      unfold render_generic_bounds
      rw [bounds_parts_filter_use]
    rw [h1, hnil]
    rfl
  · intro bounds h
    unfold render_generic_bounds
    have : (bounds.map render_generic_bound).filter
        (fun s => !(s_is_empty (s_trim s))) = bounds.map render_generic_bound := by
      rw [List.filter_eq_self]
      intro s hs
      obtain ⟨b, hb, rfl⟩ := List.mem_map.mp hs
      rw [h b hb]
      decide
    rw [this]

/-- Witness for C9 at concrete bound lists: a lone `use<..>` bound renders as
nothing, and a mixed list renders as if the `use<..>` bound were absent. -/
theorem c9_bounds_join_witness :
    render_generic_bounds [GenericBound.use ["T"]] = "" ∧
    render_generic_bounds
        [GenericBound.traitBound ⟨0, "Clone"⟩ [] TraitBoundModifier.none,
         GenericBound.use ["T"],
         GenericBound.traitBound ⟨1, "Send"⟩ [] TraitBoundModifier.none] =
      render_generic_bounds
        ([GenericBound.traitBound ⟨0, "Clone"⟩ [] TraitBoundModifier.none,
          GenericBound.use ["T"],
          GenericBound.traitBound ⟨1, "Send"⟩ [] TraitBoundModifier.none].filter
          (fun b => !is_use_bound b)) :=
  ⟨c9_bounds_join.2.1 _ (by decide), c9_bounds_join.1 _⟩

/-- C3: the visibility gate of `render_item` — an item that is not public
renders nothing when private rendering is off and the visit is not
visibility-forced; with private rendering on the gate never fires (rendering
is independent of the forcing flag); and at the concrete fixture the private
function disappears in default mode and renders verbatim in private mode. -/
theorem c3_visibility_gate :
    (∀ (state : RenderState) (fuel : Nat) (path : String) (item : Item),
      item.visibility ≠ Visibility.public →
      state.config.render_private_items = false →
      render_item state fuel path item false = "") ∧
    (∀ (state : RenderState) (fuel : Nat) (path : String) (item : Item)
        (force_private : Bool),
      state.config.render_private_items = true →
      render_item state fuel path item force_private =
        render_item state fuel path item true) ∧
    (render_item hidden_fn_state_default 1 "" hidden_fn_item false = "" ∧
     render_item hidden_fn_state_private 1 "" hidden_fn_item false =
       "  fn hidden() \x7b\x7d\n\n") := by
  refine ⟨?_, ?_, by decide⟩
  · intro state fuel path item hvis hpriv
    have hv : is_visible state item = false := by
      unfold is_visible
      rw [hpriv]
      simp [hvis]
    conv_lhs => rw [render_item]
    simp [hv, ite_self]
  · intro state fuel path item force_private hpriv
    have hv : is_visible state item = true := by
      unfold is_visible
      rw [hpriv]
      rfl
    conv_lhs => rw [render_item]
    conv_rhs => rw [render_item]
    simp [hv]

/-- Witness for C3's quantified parts at the concrete fixture. -/
theorem c3_visibility_gate_witness :
    render_item hidden_fn_state_default 2 "" hidden_fn_item false = "" ∧
    render_item hidden_fn_state_private 2 "" hidden_fn_item false =
      render_item hidden_fn_state_private 2 "" hidden_fn_item true :=
  ⟨c3_visibility_gate.1 hidden_fn_state_default 2 "" hidden_fn_item
      (by decide) rfl,
   c3_visibility_gate.2.1 hidden_fn_state_private 2 "" hidden_fn_item false rfl⟩

/-- C5: `render_impl` returns either the empty string or a block containing
at least one nonempty rendered member — an empty `impl .. {}` shell is never
emitted, because the head is discarded whenever every member of the member
loop renders nothing. -/
theorem c5_impl_no_empty_shell (state : RenderState) (path : String)
    (item : Item) :
    render_impl state path item = "" ∨
    ∃ impl_ member_text,
      item.inner = ItemEnum.implBlock impl_ ∧
      member_text ∈ render_impl_members state path item impl_ ∧
      member_text ≠ "" ∧
      ∃ pre post, render_impl state path item = pre ++ member_text ++ post := by
  cases hinner : item.inner with
  | implBlock impl_ =>
    cases hctx : selection_context_contains state item.id with
    | false =>
      left
      unfold render_impl
      simp [hinner, hctx]
    | true =>
      by_cases hts : (match impl_.trait_ with
        | some trait_ =>
          match state.crate_data.index trait_.id with
          | some trait_item => !is_visible state trait_item
          | Option.none => false
        | Option.none => false) = true
      · left
        unfold render_impl
        simp only [hinner, hctx]
        rw [if_neg (by simp), if_pos hts]
      · cases hany : (render_impl_members state path item impl_).any
            (fun s => !s_is_empty s) with
        | false =>
          left
          unfold render_impl
          simp only [hinner, hctx]
          rw [if_neg (by simp), if_neg hts, if_pos (by rw [hany]; rfl)]
        | true =>
          right
          obtain ⟨member_text, hmem, hne⟩ := List.any_eq_true.mp hany
          refine ⟨impl_, member_text, rfl, hmem,
            ne_empty_of_s_is_empty_false (by
              cases h : s_is_empty member_text
              · rfl
              · rw [h] at hne; exact absurd hne (by decide)), ?_⟩
          obtain ⟨pre, post, hjoin⟩ := string_join_split hmem
          refine ⟨(docs item ++
              (if impl_.is_unsafe then "unsafe " else "") ++ "impl" ++
              render_generics impl_.generics ++ " " ++
              (match impl_.trait_ with
               | some trait_ =>
                 let trait_path := render_path trait_
                 if !s_is_empty trait_path then trait_path ++ " for " else ""
               | Option.none => "") ++
              render_type impl_.for_ ++
              (if !s_is_empty (render_where_clause impl_.generics) then
                "\n" ++ render_where_clause impl_.generics else "") ++
              " \x7b\n") ++ pre,
            post ++ "\x7d\n\n", ?_⟩
          unfold render_impl
          simp only [hinner, hctx]
          rw [if_neg (by simp), if_neg hts, if_neg (by rw [hany]; decide)]
          rw [hjoin]
          cases hwc : s_is_empty (render_where_clause impl_.generics) <;>
            simp [hwc, String.append_assoc]
  | module m => left; unfold render_impl; simp [hinner]
  | structItem s => left; unfold render_impl; simp [hinner]
  | structField t => left; unfold render_impl; simp [hinner]
  | enumItem => left; unfold render_impl; simp [hinner]
  | traitDecl => left; unfold render_impl; simp [hinner]
  | function f => left; unfold render_impl; simp [hinner]
  | constant t c => left; unfold render_impl; simp [hinner]
  | typeAlias t => left; unfold render_impl; simp [hinner]
  | assocType b t => left; unfold render_impl; simp [hinner]

/-- A set `filter_matched` flag survives every later `should_filter` call. -/
theorem should_filter_snd_true (config : Renderer) (root : Id) (p : String)
    (it : Item) : (should_filter config root true p it).2 = true := by
  unfold should_filter
  split
  · rfl
  split
  · rfl
  split <;> rfl

/-- From an unset flag, `should_filter` sets `filter_matched` exactly on a
non-root exact `Hit` under a nonempty filter. -/
theorem should_filter_snd_false_iff (config : Renderer) (root : Id)
    (p : String) (it : Item) :
    (should_filter config root false p it).2 = true ↔
      it.id ≠ root ∧ s_is_empty config.filter = false ∧
        filter_match config p it = FilterMatch.Hit := by
  by_cases h1 : it.id = root
  · simp [should_filter, h1]
  · cases hfe : s_is_empty config.filter with
    | true => simp [should_filter, h1, hfe]
    | false =>
      cases hm : filter_match config p it <;>
        simp [should_filter, h1, hfe, hm]

/-- On a non-root `Hit` under a nonempty filter, `should_filter` reports the
flag set whatever its incoming value. -/
theorem should_filter_snd_of_hit (config : Renderer) (root : Id) (p : String)
    (it : Item) (m : Bool) (h1 : it.id ≠ root)
    (h2 : s_is_empty config.filter = false)
    (h3 : filter_match config p it = FilterMatch.Hit) :
    (should_filter config root m p it).2 = true := by
  unfold should_filter
  rw [if_neg h1, if_neg (by simp [h2]), h3]

/-- An already-true flag is preserved by the whole walk. -/
theorem final_filter_fold_true (config : Renderer) (root : Id)
    (visits : List (String × Item)) :
    visits.foldl (fun m v => (should_filter config root m v.1 v.2).2) true =
      true := by
  induction visits with
  | nil => rfl
  | cons v vs ih => rw [List.foldl_cons, should_filter_snd_true]; exact ih

/-- A visit classifying as a non-root `Hit` drives the flag to true from any
starting value. -/
theorem final_filter_fold_of_hit (config : Renderer) (root : Id)
    (v : String × Item) (hfe : s_is_empty config.filter = false) :
    ∀ (visits : List (String × Item)) (acc : Bool), v ∈ visits →
      visit_is_hit config root v →
      visits.foldl (fun m w => (should_filter config root m w.1 w.2).2) acc =
        true := by
  intro visits
  induction visits with
  | nil => intro acc h; cases h
  | cons w vs ih =>
    intro acc hmem hhit
    rcases List.mem_cons.mp hmem with rfl | h2
    · rw [List.foldl_cons,
        should_filter_snd_of_hit config root v.1 v.2 acc hhit.1 hfe hhit.2]
      exact final_filter_fold_true config root vs
    · rw [List.foldl_cons]
      exact ih _ h2 hhit

/-- C4: with a nonempty filter, the render call fails with
`FilterNotMatched` carrying the filter string exactly when no non-root visit
of the walk classifies as an exact `Hit` (visits classified `Prefix`/`Suffix`
leave the flag unset); one exact `Hit` prevents the error; and `Hit` means
the item's canonical path components below the root equal the filter's
components. -/
theorem c4_filter_not_matched :
    (∀ (config : Renderer) (root : Id) (visits : List (String × Item))
        (output : String),
      s_is_empty config.filter = false →
      (∀ v ∈ visits, ¬ visit_is_hit config root v) →
      render_filter_check config root visits output =
        Except.error (RipdocError.FilterNotMatched config.filter)) ∧
    (∀ (config : Renderer) (root : Id) (visits : List (String × Item))
        (output : String) (v : String × Item),
      v ∈ visits → visit_is_hit config root v →
      render_filter_check config root visits output = Except.ok output) ∧
    (∀ (config : Renderer) (p : String) (item : Item),
      filter_match config p item = FilterMatch.Hit ↔
        ∃ n, item.name = some n ∧
          s_split_on config.filter "::" =
            (s_split_on (ppush p n) "::").drop 1) := by
  refine ⟨?_, ?_, ?_⟩
  · intro config root visits output hfe hnone
    have hfold : final_filter_matched config root visits = false := by
      unfold final_filter_matched
      induction visits with
      | nil => rfl
      | cons v vs ih =>
        rw [List.foldl_cons]
        have hstep : (should_filter config root false v.1 v.2).2 = false := by
          cases hsf : (should_filter config root false v.1 v.2).2 with
          | false => rfl
          | true =>
            obtain ⟨ha, _, hc⟩ := (should_filter_snd_false_iff _ _ _ _).mp hsf
            exact absurd ⟨ha, hc⟩ (hnone v (List.mem_cons_self v vs))
        rw [hstep]
        exact ih (fun w hw => hnone w (List.mem_cons_of_mem v hw))
    unfold render_filter_check
    rw [hfold, hfe]
    rfl
  · intro config root visits output v hmem hhit
    cases hfe : s_is_empty config.filter with
    | true =>
      unfold render_filter_check
      rw [hfe]
      rfl
    | false =>
      have hfold : final_filter_matched config root visits = true :=
        final_filter_fold_of_hit config root v hfe visits false hmem hhit
      unfold render_filter_check
      rw [hfold]
      simp
  · intro config p item
    cases hn : item.name with
    | none =>
      simp [filter_match, hn]
    | some n =>
      simp only [filter_match, hn]
      constructor
      · intro h
        by_cases heq : s_split_on config.filter "::" =
            (s_split_on (ppush p n) "::").drop 1
        · exact ⟨n, rfl, heq⟩
        · rw [if_neg heq] at h
          split at h <;> try split at h
          all_goals simp_all
      · rintro ⟨n2, hn2, heq⟩
        have hnn : n = n2 := Option.some.inj hn2
        subst hnn
        rw [if_pos heq]

/-- Witness for C4 at a concrete walk: a visit whose path below the root is
exactly the filter yields success, and a walk with no such visit yields the
`FilterNotMatched` error naming the filter. -/
theorem c4_filter_not_matched_witness :
    render_filter_check filter_config 0 [("mycrate", filter_hit_item)] "out" =
      Except.ok "out" ∧
    render_filter_check filter_config 0 [] "out" =
      Except.error (RipdocError.FilterNotMatched "target") :=
  ⟨c4_filter_not_matched.2.1 filter_config 0 [("mycrate", filter_hit_item)]
      "out" ("mycrate", filter_hit_item) (List.mem_cons_self _ _)
      ⟨by decide, by decide⟩,
   c4_filter_not_matched.1 filter_config 0 [] "out" (by decide)
      (fun v hv => absurd hv (List.not_mem_nil v))⟩

/-- With no active selection (`SelectionView` inactive), the tuple-field
`filter_map` produces exactly one entry per well-formed field — the expected
placeholder or modifier-plus-type — and every entry is nonempty. -/
theorem tuple_entries_total (state : RenderState) :
    ∀ fields : List (Option Id),
      (∀ f ∈ fields, ∃ id field_item ty, f = some id ∧
        state.crate_data.index id = some field_item ∧
        field_item.inner = ItemEnum.structField ty ∧
        s_is_empty (render_type ty) = false) →
      fields.filterMap (tuple_field_entry state ⟨false, false⟩) =
        fields.map (expected_tuple_entry state) ∧
      (∀ e ∈ fields.map (expected_tuple_entry state), s_is_empty e = false) := by
  intro fields
  induction fields with
  | nil =>
    intro _
    exact ⟨rfl, by intro e he; cases he⟩
  | cons f fs ih =>
    intro h
    obtain ⟨id, fi, ty, hf, hidx, hityp, hnety⟩ := h f (List.mem_cons_self f fs)
    subst hf
    obtain ⟨htail, hnetail⟩ := ih (fun g hg => h g (List.mem_cons_of_mem _ hg))
    have hentry : tuple_field_entry state ⟨false, false⟩ (some id) =
        some (expected_tuple_entry state (some id)) := by
      unfold tuple_field_entry expected_tuple_entry
      simp [SelectionView.includes_child, hidx, hityp]
      split <;> rfl
    have hexp : s_is_empty (expected_tuple_entry state (some id)) = false := by
      unfold expected_tuple_entry
      simp only [hidx, hityp]
      cases hv : is_visible state fi
      · rfl
      · show s_is_empty (render_vis fi ++ render_type ty) = false
        rw [s_is_empty_append, hnety, Bool.and_false]
    refine ⟨?_, ?_⟩
    · rw [List.filterMap_cons, List.map_cons, hentry, htail]
    · intro e he
      rw [List.map_cons] at he
      rcases List.mem_cons.mp he with rfl | h2
      · exact hexp
      · exact hnetail e h2

/-- C2: for a tuple struct rendered with no active selection and well-formed
field ids, the rendered field list has exactly one entry per field in
declaration order — the visibility modifier plus the type for a field passing
the visibility gate, the placeholder `_` for one failing it — and a nonempty
field list always renders, with the entries joined in position. -/
theorem c2_tuple_field_arity (state : RenderState) (item : Item)
    (generics where_clause : String) (fields : List (Option Id))
    (hsel : state.config.selection = Option.none)
    (hwf : ∀ f ∈ fields, ∃ id field_item ty, f = some id ∧
      state.crate_data.index id = some field_item ∧
      field_item.inner = ItemEnum.structField ty ∧
      s_is_empty (render_type ty) = false) :
    fields.filterMap (tuple_field_entry state
        (StructRenderContext.new state item generics where_clause).selection) =
      fields.map (expected_tuple_entry state) ∧
    (fields.filterMap (tuple_field_entry state
        (StructRenderContext.new state item generics where_clause).selection)).length
      = fields.length ∧
    (fields ≠ [] →
      render_struct_tuple state
          (StructRenderContext.new state item generics where_clause) fields =
        some (render_vis item ++ "struct " ++ render_name item ++ generics ++
          "(" ++ String.intercalate ", "
            (fields.map (expected_tuple_entry state)) ++ ")" ++
          where_clause ++ ";\n\n")) := by
  have hview : (StructRenderContext.new state item generics where_clause).selection =
      ⟨false, false⟩ := by
    simp [StructRenderContext.new, SelectionView.new, RenderState.selection, hsel]
  obtain ⟨hmap, hne⟩ := tuple_entries_total state fields hwf
  refine ⟨by rw [hview, hmap], by rw [hview, hmap, List.length_map], ?_⟩
  intro hfields
  cases hfe : fields with
  | nil => exact absurd hfe hfields
  | cons f0 fs =>
    subst hfe
    have hstr : s_is_empty (String.intercalate ", "
        ((f0 :: fs).map (expected_tuple_entry state))) = false := by
      rw [List.map_cons]
      exact s_is_empty_intercalate_cons _ _
        (hne _ (by rw [List.map_cons]; exact List.mem_cons_self _ _))
    unfold render_struct_tuple
    rw [hview, hmap]
    simp only [SelectionView.expands_self]
    rw [hstr]
    rfl

/-- Witness for C2 at the concrete mixed-visibility tuple struct of the
test-suite: `pub struct PrivateFieldsTuple(pub i32, String, pub bool)`
renders its hidden middle field as `_` in position. -/
theorem c2_tuple_field_arity_witness :
    render_struct_tuple tuple_state
        (StructRenderContext.new tuple_state tuple_item "" "")
        [some 11, some 12, some 13] =
      some "pub struct PrivateFieldsTuple(pub i32, _, pub bool);\n\n" := by
  have h := (c2_tuple_field_arity tuple_state tuple_item "" ""
      [some 11, some 12, some 13] rfl (by
        intro f hf
        simp only [List.mem_cons, List.not_mem_nil, or_false] at hf
        rcases hf with rfl | rfl | rfl
        · exact ⟨11, _, RType.primitive "i32", rfl, rfl, rfl, rfl⟩
        · exact ⟨12, _, RType.resolvedPath 90 "String", rfl, rfl, rfl, rfl⟩
        · exact ⟨13, _, RType.primitive "bool", rfl, rfl, rfl, rfl⟩)).2.2
      (by decide)
  exact h.trans (by decide)

/-- Inside an open fence, `render_doc_block_aux` emits the non-fence body
lines (doctest setup lines hidden) and the plain closing fence, leaving
`contains_text` untouched. -/
theorem render_doc_block_aux_fence :
    ∀ (body : List (String × String)) (ci : String) (ct : Bool) (md : String),
      (∀ e ∈ body, s_starts_with (s_trim_left (s_trim_right e.2)) "```" = false) →
      render_doc_block_aux (body ++ [(ci, "```")]) true ct md =
        (md ++ (doc_fence_body_out body ++ "```\n\n"), ct) := by
  intro body
  induction body with
  | nil =>
    intro ci ct md _
    rfl
  | cons e rest ih =>
    intro ci ct md h
    have hfence := h e (List.mem_cons_self e rest)
    have htail := fun g hg => h g (List.mem_cons_of_mem e hg)
    rcases hu : unhide_doctest_line (s_trim_right e.2) with _ | x
    · have hb : doc_fence_body_out (e :: rest) = doc_fence_body_out rest := by
        rw [doc_fence_body_out, hu]
        exact String.empty_append _
      rw [List.cons_append, render_doc_block_aux, hfence, hu, hb]
      exact ih ci ct md htail
    · have hb : doc_fence_body_out (e :: rest) =
          (x ++ "\n") ++ doc_fence_body_out rest := by
        rw [doc_fence_body_out, hu]
      rw [List.cons_append, render_doc_block_aux, hfence, hu, hb]
      show render_doc_block_aux (rest ++ [(ci, "```")]) true
          (if (!s_is_empty x && !true) = true then true else ct)
          (md ++ x ++ "\n") =
        (md ++ (((x ++ "\n") ++ doc_fence_body_out rest) ++ "```\n\n"), ct)
      have hand : (!s_is_empty x && !true) = false := Bool.and_false _
      rw [hand]
      exact (ih ci ct (md ++ x ++ "\n") htail).trans
        (by simp [String.append_assoc])

set_option maxHeartbeats 2000000 in
/-- C8 (amended): markdown conversion remaps a blank, `rust`, `no_run`,
`compile_fail`, `should_panic` or `ignore` fence tag to a single fence tagged
`rust`; a `text` tag keeps the fence markers but empties the tag (it does
*not* unfence the block); an unrecognized tag is passed through unchanged;
and non-doc declaration lines after the doc block land in their own separate
` ```rust ` fence, never merged with the doc block. -/
theorem c8_doc_fence_amended :
    (∀ tag ∈ (["", "rust", "no_run", "compile_fail", "should_panic",
        "ignore"] : List String), normalize_doc_lang tag = some "rust") ∧
    normalize_doc_lang "text" = some "" ∧
    (∀ (opener : String × String) (ci mtag : String)
        (body : List (String × String)),
      s_starts_with (s_trim_left (s_trim_right opener.2)) "```" = true →
      normalize_doc_lang
          (s_trim (s_drop (s_trim_left (s_trim_right opener.2)) 3)) =
        some mtag →
      (∀ e ∈ body, s_starts_with (s_trim_left (s_trim_right e.2)) "```" = false) →
      render_doc_block (opener :: (body ++ [(ci, "```")])) =
        ("```" ++ mtag ++ "\n" ++ (doc_fence_body_out body ++ "```\n\n"),
          false)) ∧
    (∀ (entry : String × String) (rest : List (String × String)) (ct : Bool)
        (md : String),
      s_starts_with (s_trim_left (s_trim_right entry.2)) "```" = true →
      normalize_doc_lang
          (s_trim (s_drop (s_trim_left (s_trim_right entry.2)) 3)) =
        Option.none →
      render_doc_block_aux (entry :: rest) false ct md =
        render_doc_block_aux rest true ct
          (md ++ s_trim_left (s_trim_right entry.2) ++ "\n")) ∧
    rust_to_markdown markdown_source =
      "intro\n\n```rust\nlet x = 1\n```\n\n```rust\npub fn demo();\n```" := by
  refine ⟨by decide, by decide, ?_, ?_, by decide⟩
  · intro opener ci mtag body ho hnorm hbody
    unfold render_doc_block
    rw [render_doc_block_aux, ho]
    simp only []
    rw [hnorm]
    show render_doc_block_aux (body ++ [(ci, "```")]) true false
        ("```" ++ mtag ++ "\n") =
      ("```" ++ mtag ++ "\n" ++ (doc_fence_body_out body ++ "```\n\n"), false)
    rw [render_doc_block_aux_fence body ci false ("```" ++ mtag ++ "\n") hbody]
  · intro entry rest ct md ho hnorm
    rw [render_doc_block_aux, ho]
    simp only []
    rw [hnorm]
    simp only [if_true]
    rfl

/-- Witness for C8's amended fence property at a concrete `compile_fail`
block. -/
theorem c8_doc_fence_amended_witness :
    render_doc_block
        [("", "```compile_fail"), ("", "let x = 1"), ("", "```")] =
      ("```rust\nlet x = 1\n```\n\n", false) := by
  have h := c8_doc_fence_amended.2.2.1 ("", "```compile_fail") "" "rust"
    [("", "let x = 1")] (by decide) (by decide) (by decide)
  exact h.trans (by decide)

end Ruskel
